import Mathlib

/-
Verification of the Madison, WI monthly expense estimator.

Shallow embedding of the calculation engine (`compute_expenses`,
`non_rent_total`, the derived-income formulas, and the neighborhood map
rows of `app.py`) together with the static reference tables of `data.py`.

Modelling choices:
* Python dicts with a fixed, finite key set (neighborhood names, transport
  modes, gym options, streaming services, spending-style keys) become
  inductive types; an invalid key would be a `KeyError` in the source, so
  the embedding only speaks about valid keys.
* `compute_expenses` returns a Python dict built by successive insertion;
  insertion order is observable (chart, totals), so the embedding returns
  an ordered association list `List (String × ℤ)`.
* Monetary values are integers in the source (table entries, sliders);
  the intermediate products that are rounded use exact rational
  arithmetic, and Python's built-in `round` (banker's rounding,
  round-half-to-even) is modelled by `pyRound`.  The float literals
  `0.80`, `1.0`, `1.22` become the rationals 4/5, 1, 61/50.
* The required-income formulas use `ℚ` (Python float division, modelled
  exactly).
-/

namespace MadisonExpense

/-- Python's built-in `round` on an exact rational: round half to even. -/
def pyRound (q : ℚ) : ℤ :=
  if 2 * (q - ⌊q⌋) = 1 then
    (if ⌊q⌋ % 2 = 0 then ⌊q⌋ else ⌊q⌋ + 1)
  else
    round q

/-- Unit types: the `"studio"`, `"1BR"`, `"2BR"` keys. -/
inductive UnitType
  | studio
  | oneBR
  | twoBR
  deriving DecidableEq, Fintype

/-- Spending-style keys `"frugal"`, `"moderate"`, `"comfortable"`
(tuple format in `data.py`: (frugal, moderate, comfortable)). -/
inductive Style
  | frugal
  | moderate
  | comfortable
  deriving DecidableEq, Fintype

/-- The list indexing `["frugal", "moderate", "comfortable"][style_idx]`
from `compute_expenses`. -/
def styleKey (i : Fin 3) : Style :=
  match i with
  | ⟨0, _⟩ => .frugal
  | ⟨1, _⟩ => .moderate
  | ⟨2, _⟩ => .comfortable
  | ⟨n + 3, h⟩ => absurd h (by omega)

/-- A (frugal, moderate, comfortable) tier table from `data.py`. -/
structure Tiered (α : Type) where
  frugal : α
  moderate : α
  comfortable : α
  deriving DecidableEq

/-- Key lookup in a tier table. -/
def Tiered.get {α : Type} (t : Tiered α) : Style → α
  | .frugal => t.frugal
  | .moderate => t.moderate
  | .comfortable => t.comfortable

/-- Indexing a rent tuple `(frugal, moderate, comfortable)` by `style_idx`. -/
def tupleGet (t : ℤ × ℤ × ℤ) (i : Fin 3) : ℤ :=
  match i with
  | ⟨0, _⟩ => t.1
  | ⟨1, _⟩ => t.2.1
  | ⟨2, _⟩ => t.2.2
  | ⟨n + 3, h⟩ => absurd h (by omega)

/-- One record of the `NEIGHBORHOODS` table.  The source reads
`utility_factor`, `grocery_factor` and `non_rent_adj` with
`dict.get(key, default)`, so they are optional fields; no entry of
`data.py` defines any of them. -/
structure Neighborhood where
  parking_monthly : ℤ
  studio : ℤ × ℤ × ℤ
  oneBR : ℤ × ℤ × ℤ
  twoBR : ℤ × ℤ × ℤ
  utility_factor : Option ℚ
  grocery_factor : Option ℚ
  non_rent_adj : Option ℤ
  deriving DecidableEq

/-- The neighborhood keys of `NEIGHBORHOODS`, in dict insertion order. -/
inductive NbhdName
  | downtownCapitolSquare
  | nearEastSide
  | willyStreetMarquette
  | isthmusBroomSt
  | universityAveCampusArea
  | middleton
  | monona
  deriving DecidableEq, Fintype

/-- The `NEIGHBORHOODS` table of `data.py` (descriptions and lat/lon are
display-only and omitted). -/
def NEIGHBORHOODS : NbhdName → Neighborhood
  | .downtownCapitolSquare =>
    { parking_monthly := 150
      studio := (950, 1150, 1400)
      oneBR := (1200, 1500, 1900)
      twoBR := (1700, 2100, 2600)
      utility_factor := none
      grocery_factor := none
      non_rent_adj := none }
  | .nearEastSide =>
    { parking_monthly := 50
      studio := (850, 1000, 1250)
      oneBR := (1050, 1300, 1600)
      twoBR := (1400, 1700, 2100)
      utility_factor := none
      grocery_factor := none
      non_rent_adj := none }
  | .willyStreetMarquette =>
    { parking_monthly := 50
      studio := (850, 1000, 1200)
      oneBR := (1000, 1250, 1550)
      twoBR := (1350, 1650, 2000)
      utility_factor := none
      grocery_factor := none
      non_rent_adj := none }
  | .isthmusBroomSt =>
    { parking_monthly := 100
      studio := (900, 1100, 1350)
      oneBR := (1100, 1400, 1750)
      twoBR := (1500, 1900, 2350)
      utility_factor := none
      grocery_factor := none
      non_rent_adj := none }
  | .universityAveCampusArea =>
    { parking_monthly := 120
      studio := (800, 950, 1150)
      oneBR := (950, 1200, 1450)
      twoBR := (1300, 1600, 1950)
      utility_factor := none
      grocery_factor := none
      non_rent_adj := none }
  | .middleton =>
    { parking_monthly := 0
      studio := (800, 950, 1150)
      oneBR := (1000, 1200, 1500)
      twoBR := (1300, 1600, 2000)
      utility_factor := none
      grocery_factor := none
      non_rent_adj := none }
  | .monona =>
    { parking_monthly := 0
      studio := (750, 900, 1100)
      oneBR := (950, 1150, 1400)
      twoBR := (1250, 1500, 1850)
      utility_factor := none
      grocery_factor := none
      non_rent_adj := none }

/-- The iteration order of `NEIGHBORHOODS.items()` (dict insertion order). -/
def NEIGHBORHOODS_ORDER : List NbhdName :=
  [.downtownCapitolSquare, .nearEastSide, .willyStreetMarquette,
   .isthmusBroomSt, .universityAveCampusArea, .middleton, .monona]

/-- `nbhd_data[unit_type]`, the rent tuple for a unit type. -/
def rentTuple (n : Neighborhood) : UnitType → ℤ × ℤ × ℤ
  | .studio => n.studio
  | .oneBR => n.oneBR
  | .twoBR => n.twoBR

/-- `nbhd_data[unit_type][style_idx]`, the rent line of `compute_expenses`. -/
def rentAt (n : Neighborhood) (unit_type : UnitType) (style_idx : Fin 3) : ℤ :=
  tupleGet (rentTuple n unit_type) style_idx

/-- Keys of the `TRANSPORT` table, in dict insertion order. -/
inductive TransportChoice
  | metroBus
  | ownCar
  | bikeWalk
  | hybrid
  deriving DecidableEq, Fintype

/-- One record of the `TRANSPORT` table (notes are display-only). -/
structure TransportMode where
  monthly_fixed : ℤ
  monthly_variable : ℤ
  deriving DecidableEq

/-- The `TRANSPORT` table of `data.py`. -/
def TRANSPORT : TransportChoice → TransportMode
  | .metroBus => { monthly_fixed := 52, monthly_variable := 0 }
  | .ownCar => { monthly_fixed := 0, monthly_variable := 0 }
  | .bikeWalk => { monthly_fixed := 10, monthly_variable := 0 }
  | .hybrid => { monthly_fixed := 52, monthly_variable := 60 }

/-- The `CAR_COSTS` table of `data.py`. -/
structure CarCosts where
  gas_monthly : ℤ
  insurance_monthly : ℤ
  maintenance_monthly : ℤ
  deriving DecidableEq

def CAR_COSTS : CarCosts :=
  { gas_monthly := 80, insurance_monthly := 105, maintenance_monthly := 60 }

/-- The `UTILITIES` table of `data.py`. -/
structure UtilityProfile where
  electric_gas_avg : ℤ
  internet : ℤ
  renters_insurance : ℤ
  deriving DecidableEq

def UTILITIES : UtilityProfile :=
  { electric_gas_avg := 100, internet := 65, renters_insurance := 15 }

/-- The `FOOD` table of `data.py`. -/
structure FoodProfile where
  groceries : Tiered ℤ
  dining_out_cost_per_meal : Tiered ℤ
  coffee : Tiered ℤ
  deriving DecidableEq

def FOOD : FoodProfile :=
  { groceries := { frugal := 200, moderate := 320, comfortable := 450 }
    dining_out_cost_per_meal := { frugal := 12, moderate := 25, comfortable := 45 }
    coffee := { frugal := 20, moderate := 50, comfortable := 90 } }

/-- Keys of `LIFESTYLE["gym"]`, in dict insertion order. -/
inductive GymChoice
  | none
  | planetFitness
  | uwSerf
  | madisonYmca
  | anytimeFitness
  | boutiqueStudio
  deriving DecidableEq, Fintype

/-- Keys of `LIFESTYLE["streaming"]`, in dict insertion order. -/
inductive StreamingService
  | netflix
  | spotify
  | hulu
  | maxHbo
  | disneyPlus
  | youtubePremium
  | appleTvPlus
  | amazonPrime
  deriving DecidableEq, Fintype

namespace LIFESTYLE

/-- `LIFESTYLE["gym"]`. -/
def gym : GymChoice → ℤ
  | .none => 0
  | .planetFitness => 25
  | .uwSerf => 35
  | .madisonYmca => 52
  | .anytimeFitness => 40
  | .boutiqueStudio => 120

/-- `LIFESTYLE["streaming"]`. -/
def streaming : StreamingService → ℤ
  | .netflix => 17
  | .spotify => 11
  | .hulu => 18
  | .maxHbo => 16
  | .disneyPlus => 14
  | .youtubePremium => 14
  | .appleTvPlus => 10
  | .amazonPrime => 15

/-- `LIFESTYLE["entertainment_misc"]`. -/
def entertainment_misc : Tiered ℤ :=
  { frugal := 30, moderate := 80, comfortable := 175 }

/-- `LIFESTYLE["personal_care"]`. -/
def personal_care : Tiered ℤ :=
  { frugal := 30, moderate := 60, comfortable := 100 }

/-- `LIFESTYLE["clothing"]`. -/
def clothing : Tiered ℤ :=
  { frugal := 20, moderate := 60, comfortable := 130 }

end LIFESTYLE

/-- The inline dict `{"studio": 0.80, "1BR": 1.0, "2BR": 1.22}` of
`compute_expenses` (float literals as exact rationals). -/
def unit_energy_factor : UnitType → ℚ
  | .studio => 4 / 5
  | .oneBR => 1
  | .twoBR => 61 / 50

/-- `compute_expenses` from `app.py` (lines 89-133): returns the ordered
mapping of expense line items. -/
def compute_expenses (neighborhood : NbhdName) (unit_type : UnitType)
    (style_idx : Fin 3) (transport_choice : TransportChoice)
    (dining_out_frequency : ℤ) (gym_choice : GymChoice)
    (streaming_choices : List StreamingService)
    (healthcare parking other_entertainment : ℤ) : List (String × ℤ) :=
  let style_key := styleKey style_idx
  let nbhd_data := NEIGHBORHOODS neighborhood
  let utility_factor : ℚ := nbhd_data.utility_factor.getD 1
  let utilities : ℤ := pyRound
    ((UTILITIES.electric_gas_avg : ℚ) * utility_factor * unit_energy_factor unit_type
      + (UTILITIES.internet : ℚ) + (UTILITIES.renters_insurance : ℚ))
  let t := TRANSPORT transport_choice
  let transport_cost : ℤ :=
    if transport_choice = .ownCar then
      CAR_COSTS.gas_monthly + CAR_COSTS.insurance_monthly + CAR_COSTS.maintenance_monthly
    else
      t.monthly_fixed + t.monthly_variable
  let groceries : ℤ := pyRound
    ((FOOD.groceries.get style_key : ℚ) * nbhd_data.grocery_factor.getD 1)
  [ ("Rent", rentAt nbhd_data unit_type style_idx),
    ("Utilities", utilities),
    ("Transportation", transport_cost),
    ("Parking", parking),
    ("Groceries", groceries),
    ("Dining Out", dining_out_frequency * FOOD.dining_out_cost_per_meal.get style_key),
    ("Coffee / Cafes", FOOD.coffee.get style_key),
    ("Healthcare", healthcare),
    ("Gym / Fitness", LIFESTYLE.gym gym_choice),
    ("Streaming", (streaming_choices.map LIFESTYLE.streaming).sum),
    ("Entertainment", LIFESTYLE.entertainment_misc.get style_key),
    ("Other Entertainment", other_entertainment),
    ("Personal Care", LIFESTYLE.personal_care.get style_key),
    ("Clothing", LIFESTYLE.clothing.get style_key) ]

/-- `non_rent_total` from `app.py`: total of all categories except Rent. -/
def non_rent_total (expenses : List (String × ℤ)) : ℤ :=
  ((expenses.filter (fun p => p.1 != "Rent")).map Prod.snd).sum

/-- `total_monthly = sum(expenses.values())` from `app.py` line 236. -/
def total_monthly (expenses : List (String × ℤ)) : ℤ :=
  (expenses.map Prod.snd).sum

/-- `monthly_cash_savings = annual_cash_savings / 12` (`app.py` line 240). -/
def monthly_cash_savings (annual_cash_savings : ℚ) : ℚ :=
  annual_cash_savings / 12

/-- `net_needed = total_monthly + monthly_cash_savings` (`app.py` line 242). -/
def net_needed (totalMonthly annual_cash_savings : ℚ) : ℚ :=
  totalMonthly + monthly_cash_savings annual_cash_savings

/-- `taxable_gross_monthly = net_needed / (1 - tax_rate / 100)` (line 243). -/
def taxable_gross_monthly (totalMonthly annual_cash_savings tax_rate : ℚ) : ℚ :=
  net_needed totalMonthly annual_cash_savings / (1 - tax_rate / 100)

/-- `required_gross_monthly = taxable_gross_monthly + monthly_retirement`
(`app.py` lines 241-244). -/
def required_gross_monthly
    (totalMonthly annual_cash_savings annual_retirement tax_rate : ℚ) : ℚ :=
  taxable_gross_monthly totalMonthly annual_cash_savings tax_rate
    + annual_retirement / 12

/-- `required_gross_annual = required_gross_monthly * 12` (`app.py` line 245). -/
def required_gross_annual
    (totalMonthly annual_cash_savings annual_retirement tax_rate : ℚ) : ℚ :=
  required_gross_monthly totalMonthly annual_cash_savings annual_retirement tax_rate * 12

/-- One row of the neighborhood-map data (`app.py` lines 343-350). -/
structure MapRow where
  name : NbhdName
  monthly_rent : ℤ
  non_rent_exp : ℤ
  est_monthly_total : ℤ
  deriving DecidableEq

/-- The map-row loop of `app.py` lines 338-350.  `other_costs` is
`non_rent_total(expenses)` of the currently selected neighborhood.  The
`_HIDDEN` filter skips only a name that is not a key of `NEIGHBORHOODS`,
so it removes nothing from this iteration. -/
def map_rows (unit_type : UnitType) (style_idx : Fin 3) (other_costs : ℤ) :
    List MapRow :=
  NEIGHBORHOODS_ORDER.map (fun nbhd_name =>
    let nbhd_data := NEIGHBORHOODS nbhd_name
    let rent := rentAt nbhd_data unit_type style_idx
    let estimated_total := rent + other_costs + nbhd_data.non_rent_adj.getD 0
    { name := nbhd_name
      monthly_rent := rent
      non_rent_exp := estimated_total - rent
      est_monthly_total := estimated_total })

/-- Value of one named line item in an expense mapping. -/
def line_item (expenses : List (String × ℤ)) (key : String) : Option ℤ :=
  (expenses.find? (fun p => p.1 == key)).map Prod.snd

/-- Modelled from the spec (§4.2 step 2): the Utilities figure with rounding
applied to the scaled electric+gas portion only, the flat internet and
renters-insurance components added outside the rounding.  (The source rounds
the whole sum; the refinement theorem below compares the two.) -/
def utilities_spec (nbhd : Neighborhood) (u : UnitType) : ℤ :=
  pyRound ((UTILITIES.electric_gas_avg : ℚ) * nbhd.utility_factor.getD 1
      * unit_energy_factor u)
    + UTILITIES.internet + UTILITIES.renters_insurance

/-! ## Helper lemmas -/

/-- Every rent entry of the reference data is positive. -/
lemma rent_pos (n : NbhdName) (u : UnitType) (s : Fin 3) :
    0 < rentAt (NEIGHBORHOODS n) u s := by
  revert n u s; decide

/-- The rounded utilities figure is non-negative for every neighborhood and
unit type in the reference data. -/
lemma utilities_nonneg (n : NbhdName) (u : UnitType) :
    0 ≤ pyRound ((UTILITIES.electric_gas_avg : ℚ)
      * (NEIGHBORHOODS n).utility_factor.getD 1 * unit_energy_factor u
      + (UTILITIES.internet : ℚ) + (UTILITIES.renters_insurance : ℚ)) := by
  cases n <;> cases u <;>
    norm_num [pyRound, round_eq, NEIGHBORHOODS, UTILITIES, unit_energy_factor]

/-- The rounded groceries figure is non-negative for every neighborhood and
spending style in the reference data. -/
lemma groceries_nonneg (n : NbhdName) (s : Fin 3) :
    0 ≤ pyRound ((FOOD.groceries.get (styleKey s) : ℚ)
      * (NEIGHBORHOODS n).grocery_factor.getD 1) := by
  cases n <;> fin_cases s <;>
    norm_num [pyRound, round_eq, NEIGHBORHOODS, FOOD, Tiered.get, styleKey]

/-- A streaming selection always sums to a non-negative amount. -/
lemma streaming_sum_nonneg (str : List StreamingService) :
    0 ≤ (str.map LIFESTYLE.streaming).sum := by
  apply List.sum_nonneg
  intro x hx
  rcases List.mem_map.mp hx with ⟨svc, -, rfl⟩
  cases svc <;> decide

/-- Reduction of the Utilities line item of `compute_expenses`. -/
lemma line_item_utilities (n : NbhdName) (u : UnitType) (s : Fin 3)
    (t : TransportChoice) (freq : ℤ) (g : GymChoice)
    (str : List StreamingService) (hc pk oe : ℤ) :
    line_item (compute_expenses n u s t freq g str hc pk oe) "Utilities" =
      some (pyRound ((UTILITIES.electric_gas_avg : ℚ)
        * (NEIGHBORHOODS n).utility_factor.getD 1 * unit_energy_factor u
        + (UTILITIES.internet : ℚ) + (UTILITIES.renters_insurance : ℚ))) := by
  simp [line_item, compute_expenses, List.find?]

/-! ## Claim theorems -/

/-- C1: for Downtown / Capitol Square, 1BR, Moderate, Own Car, 4 dining-outs a
month, no gym, streaming = {Netflix, Spotify}, healthcare 150, parking 0,
other entertainment 0, `compute_expenses` returns exactly the line items
Rent 1500, Utilities 180, Transportation 245, Parking 0, Groceries 320,
Dining Out 100, Coffee 50, Healthcare 150, Gym 0, Streaming 28,
Entertainment 80, Other Entertainment 0, Personal Care 60, Clothing 60, and
the sum of all returned line items is 2773. -/
theorem compute_expenses_downtown_example :
    compute_expenses .downtownCapitolSquare .oneBR 1 .ownCar 4 .none
        [.netflix, .spotify] 150 0 0 =
      [ ("Rent", 1500), ("Utilities", 180), ("Transportation", 245),
        ("Parking", 0), ("Groceries", 320), ("Dining Out", 100),
        ("Coffee / Cafes", 50), ("Healthcare", 150), ("Gym / Fitness", 0),
        ("Streaming", 28), ("Entertainment", 80), ("Other Entertainment", 0),
        ("Personal Care", 60), ("Clothing", 60) ]
    ∧ total_monthly (compute_expenses .downtownCapitolSquare .oneBR 1 .ownCar 4
        .none [.netflix, .spotify] 150 0 0) = 2773 := by
  constructor <;>
    norm_num [compute_expenses, total_monthly, pyRound, round_eq, styleKey,
      rentAt, rentTuple, tupleGet, NEIGHBORHOODS, UTILITIES, CAR_COSTS, FOOD,
      TRANSPORT, unit_energy_factor, LIFESTYLE.gym, LIFESTYLE.streaming,
      LIFESTYLE.entertainment_misc, LIFESTYLE.personal_care,
      LIFESTYLE.clothing, Tiered.get]

/-- C4 counterexample: at tax rate 20, total monthly expense 2773, annual cash
savings 5000 and annual retirement 0, the code's required gross annual income
is exactly 47845, which is NOT within rounding-to-cents distance of the
claimed 47844.96 (it is 4 cents away). -/
theorem required_gross_annual_example_not_47844_96 :
    required_gross_annual 2773 5000 0 20 = 47845
    ∧ ¬ |required_gross_annual 2773 5000 0 20 - 4784496 / 100| ≤ 1 / 200 := by
  norm_num [required_gross_annual, required_gross_monthly,
    taxable_gross_monthly, net_needed, monthly_cash_savings, abs_le]

/-- C4 amended: at tax rate 20, total monthly expense 2773, annual cash
savings 5000 and annual retirement 0, the code yields the exact values
netNeeded = 9569/3 (3189.67 to the cent), requiredGrossMonthly = 47845/12
(3987.08 to the cent), and requiredGrossAnnual = 47845 exactly — twelve times
the unrounded monthly figure, not 47844.96 (= 12 × the cents-rounded
monthly). -/
theorem required_gross_income_example_exact :
    net_needed 2773 5000 = 9569 / 3
    ∧ |net_needed 2773 5000 - 318967 / 100| ≤ 1 / 200
    ∧ required_gross_monthly 2773 5000 0 20 = 47845 / 12
    ∧ |required_gross_monthly 2773 5000 0 20 - 398708 / 100| ≤ 1 / 200
    ∧ required_gross_annual 2773 5000 0 20 = 47845 := by
  norm_num [required_gross_annual, required_gross_monthly,
    taxable_gross_monthly, net_needed, monthly_cash_savings, abs_le]

/-- C5: for every valid input, the Utilities line item equals
round(baseElectricGas × neighborhoodUtilityFactor × unitEnergyFactor) with
the flat internet and renters-insurance components added outside the
rounding (`utilities_spec`, written from the spec's words).  The source
rounds the whole sum; over the reference data the two agree for every
neighborhood and unit type. -/
theorem utilities_item_rounds_scaled_portion_only
    (n : NbhdName) (u : UnitType) (s : Fin 3) (t : TransportChoice)
    (freq : ℤ) (g : GymChoice) (str : List StreamingService)
    (hc pk oe : ℤ) :
    line_item (compute_expenses n u s t freq g str hc pk oe) "Utilities" =
      some (utilities_spec (NEIGHBORHOODS n) u) := by
  rw [line_item_utilities]
  congr 1
  cases n <;> cases u <;>
    norm_num [utilities_spec, pyRound, round_eq, NEIGHBORHOODS, UTILITIES,
      unit_energy_factor]

/-- C7: in every neighborhood of the reference data the rent table is
monotonically non-decreasing along the spending-style axis and along the
unit-size axis, and every entry is a positive integer. -/
theorem rent_table_monotone_positive :
    ∀ (n : NbhdName) (u : UnitType) (i j : Fin 3), i ≤ j →
      rentAt (NEIGHBORHOODS n) u i ≤ rentAt (NEIGHBORHOODS n) u j
      ∧ rentAt (NEIGHBORHOODS n) .studio i ≤ rentAt (NEIGHBORHOODS n) .oneBR i
      ∧ rentAt (NEIGHBORHOODS n) .oneBR i ≤ rentAt (NEIGHBORHOODS n) .twoBR i
      ∧ 0 < rentAt (NEIGHBORHOODS n) u i := by
  decide

/-- Witness for C7 at Downtown / Capitol Square, 1BR, Frugal ≤ Moderate. -/
theorem rent_table_monotone_positive_witness :
    rentAt (NEIGHBORHOODS .downtownCapitolSquare) .oneBR 0
      ≤ rentAt (NEIGHBORHOODS .downtownCapitolSquare) .oneBR 1
    ∧ rentAt (NEIGHBORHOODS .downtownCapitolSquare) .studio 0
      ≤ rentAt (NEIGHBORHOODS .downtownCapitolSquare) .oneBR 0
    ∧ rentAt (NEIGHBORHOODS .downtownCapitolSquare) .oneBR 0
      ≤ rentAt (NEIGHBORHOODS .downtownCapitolSquare) .twoBR 0
    ∧ 0 < rentAt (NEIGHBORHOODS .downtownCapitolSquare) .oneBR 0 :=
  rent_table_monotone_positive .downtownCapitolSquare .oneBR 0 1 (by decide)

/-- C10: the mapping returned by `compute_expenses` has exactly the same 14
category keys in exactly the same order regardless of the input values;
zero-valued categories are still present (only the chart rendering filters
`Amount > 0`, not the returned mapping). -/
theorem compute_expenses_keys_fixed
    (n : NbhdName) (u : UnitType) (s : Fin 3) (t : TransportChoice)
    (freq : ℤ) (g : GymChoice) (str : List StreamingService)
    (hc pk oe : ℤ) :
    (compute_expenses n u s t freq g str hc pk oe).map Prod.fst =
      ["Rent", "Utilities", "Transportation", "Parking", "Groceries",
       "Dining Out", "Coffee / Cafes", "Healthcare", "Gym / Fitness",
       "Streaming", "Entertainment", "Other Entertainment", "Personal Care",
       "Clothing"] :=
  rfl

/-- C2: for every valid input with non-negative dining frequency, healthcare,
parking and other-entertainment amounts, every line item returned by
`compute_expenses` is non-negative, and the reported total monthly cost is
exactly the sum of the 14 returned line items — each category appears once
in the sum and nothing else contributes. -/
theorem compute_expenses_nonneg_and_total
    (n : NbhdName) (u : UnitType) (s : Fin 3) (t : TransportChoice)
    (freq : ℤ) (g : GymChoice) (str : List StreamingService) (hc pk oe : ℤ)
    (hfreq : 0 ≤ freq) (hhc : 0 ≤ hc) (hpk : 0 ≤ pk) (hoe : 0 ≤ oe) :
    (∀ p ∈ compute_expenses n u s t freq g str hc pk oe, 0 ≤ p.2)
    ∧ total_monthly (compute_expenses n u s t freq g str hc pk oe)
        = rentAt (NEIGHBORHOODS n) u s
          + pyRound ((UTILITIES.electric_gas_avg : ℚ)
              * (NEIGHBORHOODS n).utility_factor.getD 1 * unit_energy_factor u
              + (UTILITIES.internet : ℚ) + (UTILITIES.renters_insurance : ℚ))
          + (if t = .ownCar then
              CAR_COSTS.gas_monthly + CAR_COSTS.insurance_monthly
                + CAR_COSTS.maintenance_monthly
             else (TRANSPORT t).monthly_fixed + (TRANSPORT t).monthly_variable)
          + pk
          + pyRound ((FOOD.groceries.get (styleKey s) : ℚ)
              * (NEIGHBORHOODS n).grocery_factor.getD 1)
          + freq * FOOD.dining_out_cost_per_meal.get (styleKey s)
          + FOOD.coffee.get (styleKey s)
          + hc
          + LIFESTYLE.gym g
          + (str.map LIFESTYLE.streaming).sum
          + LIFESTYLE.entertainment_misc.get (styleKey s)
          + oe
          + LIFESTYLE.personal_care.get (styleKey s)
          + LIFESTYLE.clothing.get (styleKey s) := by
  refine ⟨?_, ?_⟩
  · intro p hp
    simp only [compute_expenses, List.mem_cons, List.not_mem_nil, or_false] at hp
    rcases hp with h|h|h|h|h|h|h|h|h|h|h|h|h|h <;> subst h <;> dsimp only
    · exact le_of_lt (rent_pos n u s)
    · exact utilities_nonneg n u
    · revert t; decide
    · exact hpk
    · exact groceries_nonneg n s
    · exact mul_nonneg hfreq (by revert s; decide)
    · revert s; decide
    · exact hhc
    · revert g; decide
    · exact streaming_sum_nonneg str
    · revert s; decide
    · exact hoe
    · revert s; decide
    · revert s; decide
  · simp only [total_monthly, compute_expenses, List.map_cons, List.map_nil,
      List.sum_cons, List.sum_nil]
    ring

/-- Witness for C2 at the Downtown example input: the hypotheses hold, and the
Rent item returned there is non-negative. -/
theorem compute_expenses_nonneg_and_total_witness :
    0 ≤ (("Rent", (1500 : ℤ)) : String × ℤ).2 :=
  (compute_expenses_nonneg_and_total .downtownCapitolSquare .oneBR 1 .ownCar 4
      .none [.netflix, .spotify] 150 0 0
      (by norm_num) (by norm_num) (by norm_num) (by norm_num)).1
    ("Rent", 1500)
    (by norm_num [compute_expenses, rentAt, rentTuple, tupleGet, NEIGHBORHOODS])

/-- C3: for non-negative expense, savings and retirement targets and a tax
rate strictly below 100, `required_gross_monthly` equals
`(totalMonthlyExpense + annualCashSavingsTarget/12) / (1 - taxRate/100)
+ annualRetirementSavingsTarget/12` — the retirement term excluded from the
tax division and added after it — and `required_gross_annual` equals
12 × `required_gross_monthly`. -/
theorem required_gross_income_formula
    (total cash ret rate : ℚ) (htotal : 0 ≤ total) (hcash : 0 ≤ cash)
    (hret : 0 ≤ ret) (hrate : rate < 100) :
    required_gross_monthly total cash ret rate
        = (total + cash / 12) / (1 - rate / 100) + ret / 12
    ∧ required_gross_annual total cash ret rate
        = 12 * required_gross_monthly total cash ret rate := by
  constructor
  · rfl
  · unfold required_gross_annual
    ring

/-- Witness for C3 at the spec's example input. -/
theorem required_gross_income_formula_witness :
    required_gross_monthly 2773 5000 0 20
        = (2773 + 5000 / 12) / (1 - 20 / 100) + 0 / 12
    ∧ required_gross_annual 2773 5000 0 20
        = 12 * required_gross_monthly 2773 5000 0 20 :=
  required_gross_income_formula 2773 5000 0 20
    (by norm_num) (by norm_num) (by norm_num) (by norm_num)

/-- C6: with transport mode Own Car the Transportation line item is exactly
gas + insurance + maintenance (= 80 + 105 + 60), with no parking folded in;
with every other mode it is that mode's fixed + variable cost; and in all
cases the Parking line item is the user-supplied parking amount verbatim. -/
theorem transport_parking_line_items
    (n : NbhdName) (u : UnitType) (s : Fin 3) (freq : ℤ) (g : GymChoice)
    (str : List StreamingService) (hc pk oe : ℤ) :
    line_item (compute_expenses n u s .ownCar freq g str hc pk oe)
        "Transportation"
        = some (CAR_COSTS.gas_monthly + CAR_COSTS.insurance_monthly
            + CAR_COSTS.maintenance_monthly)
    ∧ CAR_COSTS.gas_monthly + CAR_COSTS.insurance_monthly
        + CAR_COSTS.maintenance_monthly = 80 + 105 + 60
    ∧ (∀ t : TransportChoice, t ≠ .ownCar →
        line_item (compute_expenses n u s t freq g str hc pk oe)
            "Transportation"
          = some ((TRANSPORT t).monthly_fixed + (TRANSPORT t).monthly_variable))
    ∧ (∀ t : TransportChoice,
        line_item (compute_expenses n u s t freq g str hc pk oe) "Parking"
          = some pk) := by
  refine ⟨?_, by decide, ?_, ?_⟩
  · simp [line_item, compute_expenses, List.find?]
  · intro t ht
    cases t
    · simp [line_item, compute_expenses, List.find?, TRANSPORT]
    · exact absurd rfl ht
    · simp [line_item, compute_expenses, List.find?, TRANSPORT]
    · simp [line_item, compute_expenses, List.find?, TRANSPORT]
  · intro t
    simp [line_item, compute_expenses, List.find?]

/-- Witness for C6: the bus mode is not Own Car, and its Transportation item
is the bus pass's fixed + variable cost. -/
theorem transport_parking_line_items_witness :
    line_item (compute_expenses .monona .studio 0 .metroBus 0 .none [] 0 0 0)
        "Transportation"
      = some ((TRANSPORT .metroBus).monthly_fixed
          + (TRANSPORT .metroBus).monthly_variable) :=
  (transport_parking_line_items .monona .studio 0 0 .none [] 0 0 0).2.2.1
    .metroBus (by decide)

/-- C8: holding the other inputs fixed, both the monthly and the annual
required gross income are monotone in the effective tax rate over [0, 100),
in the annual cash savings target, and in the annual retirement savings
target, for every non-negative total monthly expense. -/
theorem required_gross_monotone
    (total cash ret : ℚ) (htotal : 0 ≤ total) (hcash : 0 ≤ cash) :
    (∀ r1 r2 : ℚ, 0 ≤ r1 → r1 ≤ r2 → r2 < 100 →
       required_gross_monthly total cash ret r1
           ≤ required_gross_monthly total cash ret r2
       ∧ required_gross_annual total cash ret r1
           ≤ required_gross_annual total cash ret r2)
    ∧ (∀ c1 c2 rate : ℚ, rate < 100 → c1 ≤ c2 →
       required_gross_monthly total c1 ret rate
           ≤ required_gross_monthly total c2 ret rate
       ∧ required_gross_annual total c1 ret rate
           ≤ required_gross_annual total c2 ret rate)
    ∧ (∀ k1 k2 rate : ℚ, k1 ≤ k2 →
       required_gross_monthly total cash k1 rate
           ≤ required_gross_monthly total cash k2 rate
       ∧ required_gross_annual total cash k1 rate
           ≤ required_gross_annual total cash k2 rate) := by
  refine ⟨?_, ?_, ?_⟩
  · intro r1 r2 h0 h12 h2
    have hm : required_gross_monthly total cash ret r1
        ≤ required_gross_monthly total cash ret r2 := by
      unfold required_gross_monthly taxable_gross_monthly net_needed
        monthly_cash_savings
      have hd2 : (0:ℚ) < 1 - r2 / 100 := by linarith
      have hd1 : (0:ℚ) < 1 - r1 / 100 := by linarith
      have hN : (0:ℚ) ≤ total + cash / 12 := by
        linarith [div_nonneg hcash (by norm_num : (0:ℚ) ≤ 12)]
      gcongr
    exact ⟨hm, by unfold required_gross_annual; linarith⟩
  · intro c1 c2 rate hrate h12
    have hm : required_gross_monthly total c1 ret rate
        ≤ required_gross_monthly total c2 ret rate := by
      unfold required_gross_monthly taxable_gross_monthly net_needed
        monthly_cash_savings
      have hdp : (0:ℚ) < 1 - rate / 100 := by linarith
      gcongr
    exact ⟨hm, by unfold required_gross_annual; linarith⟩
  · intro k1 k2 rate h12
    have hm : required_gross_monthly total cash k1 rate
        ≤ required_gross_monthly total cash k2 rate := by
      unfold required_gross_monthly
      have : k1 / 12 ≤ k2 / 12 := by linarith
      linarith
    exact ⟨hm, by unfold required_gross_annual; linarith⟩

/-- Witness for C8: raising the tax rate from 15 to 30 at the example input
does not decrease the required gross income. -/
theorem required_gross_monotone_witness :
    required_gross_monthly 2773 5000 0 15 ≤ required_gross_monthly 2773 5000 0 30
    ∧ required_gross_annual 2773 5000 0 15 ≤ required_gross_annual 2773 5000 0 30 :=
  (required_gross_monotone 2773 5000 0 (by norm_num) (by norm_num)).1 15 30
    (by norm_num) (by norm_num) (by norm_num)

/-- C9: every row of the neighborhood-comparison map data has estimated
monthly total = that neighborhood's rent at the selected unit type and style,
plus the non-rent total of the currently selected neighborhood's full expense
computation, plus that neighborhood's non-rent adjustment (default 0) — the
non-rent portion is taken from the current selection, never recomputed with
the row neighborhood's own scaling factors. -/
theorem map_rows_use_current_non_rent
    (cur : NbhdName) (u : UnitType) (s : Fin 3) (t : TransportChoice)
    (freq : ℤ) (g : GymChoice) (str : List StreamingService)
    (hc pk oe : ℤ) :
    ∀ row ∈ map_rows u s
        (non_rent_total (compute_expenses cur u s t freq g str hc pk oe)),
      row.est_monthly_total =
        rentAt (NEIGHBORHOODS row.name) u s
          + non_rent_total (compute_expenses cur u s t freq g str hc pk oe)
          + (NEIGHBORHOODS row.name).non_rent_adj.getD 0 := by
  intro row hrow
  simp only [map_rows, List.mem_map] at hrow
  rcases hrow with ⟨nb, -, rfl⟩
  rfl

/-- Witness for C9: the Downtown row, when Downtown itself is selected with
the example input (non-rent total 1273), reads 2773 = 1500 + 1273 + 0. -/
theorem map_rows_use_current_non_rent_witness :
    (⟨.downtownCapitolSquare, 1500, 1273, 2773⟩ : MapRow).est_monthly_total
      = rentAt (NEIGHBORHOODS .downtownCapitolSquare) .oneBR 1
        + non_rent_total (compute_expenses .downtownCapitolSquare .oneBR 1
            .ownCar 4 .none [.netflix, .spotify] 150 0 0)
        + (NEIGHBORHOODS .downtownCapitolSquare).non_rent_adj.getD 0 :=
  map_rows_use_current_non_rent .downtownCapitolSquare .oneBR 1 .ownCar 4
    .none [.netflix, .spotify] 150 0 0
    ⟨.downtownCapitolSquare, 1500, 1273, 2773⟩
    (by
      norm_num [map_rows, NEIGHBORHOODS_ORDER, non_rent_total,
        compute_expenses, pyRound, round_eq, styleKey, rentAt, rentTuple,
        tupleGet, NEIGHBORHOODS, UTILITIES, CAR_COSTS, FOOD, TRANSPORT,
        unit_energy_factor, LIFESTYLE.gym, LIFESTYLE.streaming,
        LIFESTYLE.entertainment_misc, LIFESTYLE.personal_care,
        LIFESTYLE.clothing, Tiered.get]
      decide)

end MadisonExpense
